import Mathlib

/-!
# SpendWise Budget Forecasting Engine — verification development

A shallow embedding of the budget-forecasting engine of the SpendWise
backend (`app/ml/predictor.py`, `app/services/prediction_service.py`,
`app/routes/predictions.py`) together with theorems settling the spec
claims about it.

Modelling conventions:
* monetary amounts and feature values are exact rationals (`ℚ`);
* a record's timestamp is represented by its calendar components
  (year, month, day) — the engine only ever reads year and month;
* the database is abstracted as the list of the user's active expense
  records (persistence, auth and HTTP routing are outside the engine);
* the fitted ElasticNet pipeline is abstracted as an arbitrary function
  from a feature row to a raw regression output or an inference failure:
  the claims about `predict_budget` concern its control flow (fallback,
  default substitution, clamping), not the regression numerics;
* Python exceptions are modelled with `Except String`.
-/

namespace SpendWise

/-- An expense record as supplied by the transaction ledger: an amount, a
category label, and the calendar components of its timestamp. -/
structure Txn where
  amount : ℚ
  category : String
  year : ℤ
  month : ℕ
  day : ℕ
deriving DecidableEq

/-- The state of a `BudgetPredictor`: the `is_trained` flag and the loaded
pipeline, abstracted as a function from a feature row to either a raw
regression output or an inference failure. -/
structure Predictor where
  is_trained : Bool
  model : List ℚ → Except String ℚ

/-- The fixed-order feature row built by `BudgetPredictor.predict_budget`:
`[month, year, avg_amount, category_diversity, transaction_count]`. -/
def featureRow (month year avg_amount category_diversity transaction_count : ℚ) : List ℚ :=
  [month, year, avg_amount, category_diversity, transaction_count]

/-- Core of `BudgetPredictor.predict_budget` once the feature row is built:
if the model is not trained return the fixed default `10000.0`; otherwise run
the loaded model on the row, clamp the raw output with `max(0.0, ·)`, and on
any inference failure return the fixed default `10000.0`. -/
def predictRow (p : Predictor) (row : List ℚ) : ℚ :=
  if p.is_trained = false then 10000
  else
    match p.model row with
    | Except.ok r => max 0 r
    | Except.error _ => 10000

/-- `BudgetPredictor.predict_budget(month, year, avg_amount=None,
category_diversity=None, transaction_count=None)`: missing optional
statistics are replaced by the fixed priors `2000.0`, `5`, `20`. -/
def predict_budget (p : Predictor) (month year : ℚ)
    (avg_amount category_diversity transaction_count : Option ℚ) : ℚ :=
  predictRow p (featureRow month year (avg_amount.getD 2000)
    (category_diversity.getD 5) (transaction_count.getD 20))

/-! ## Feature Builder (`BudgetPredictor.prepare_features`) -/

/-- Strict ascending order on the (year, month) group keys, mirroring the
sorted group-by of `df.groupby([year, month])`. -/
def keyLt (a b : ℤ × ℕ) : Bool :=
  a.1 < b.1 || (a.1 == b.1 && a.2 < b.2)

/-- Insert a (year, month) key into an ascending duplicate-free key list. -/
def insertKey (k : ℤ × ℕ) : List (ℤ × ℕ) → List (ℤ × ℕ)
  | [] => [k]
  | x :: xs =>
    if k = x then x :: xs
    else if keyLt k x then k :: x :: xs
    else x :: insertKey k xs

/-- The distinct (year, month) keys of the records' timestamps, ascending —
the group keys of `df.groupby([df.date.dt.year, df.date.dt.month])`. -/
def groupKeys (ts : List Txn) : List (ℤ × ℕ) :=
  ts.foldr (fun t acc => insertKey (t.year, t.month) acc) []

/-- The records falling in the (year, month) bucket `k`. -/
def txnsInMonth (ts : List Txn) (k : ℤ × ℕ) : List Txn :=
  ts.filter fun t => t.year == k.1 && t.month == k.2

/-- Arithmetic mean of the amounts of a record list. -/
def meanAmount (ts : List Txn) : ℚ :=
  (ts.map Txn.amount).sum / ts.length

/-- Round-half-to-even to an integer, the rounding used by
`DataFrame.round` (numpy banker's rounding). -/
def roundHalfEven (q : ℚ) : ℤ :=
  if q - ⌊q⌋ < 1/2 then ⌊q⌋
  else if 1/2 < q - ⌊q⌋ then ⌊q⌋ + 1
  else if ⌊q⌋ % 2 = 0 then ⌊q⌋ else ⌊q⌋ + 1

/-- Round to 2 decimal places (half-to-even), the `.round(2)` applied to the
monthly aggregation frame. -/
def round2 (q : ℚ) : ℚ :=
  (roundHalfEven (q * 100) : ℚ) / 100

/-- A monthly aggregate row of `prepare_features`: one per (year, month)
bucket, all four statistics carried as (rounded) floats, as in the
aggregated DataFrame. -/
structure MonthlyAgg where
  year : ℤ
  month : ℕ
  total_expense : ℚ
  avg_amount : ℚ
  transaction_count : ℚ
  category_diversity : ℚ
deriving DecidableEq

/-- The aggregate row for bucket `k`: sum, mean and count of the month's
amounts and the count of distinct category labels, each passed through the
frame-wide `.round(2)`. -/
def aggFor (ts : List Txn) (k : ℤ × ℕ) : MonthlyAgg :=
  let sub := txnsInMonth ts k
  { year := k.1
    month := k.2
    total_expense := round2 (sub.map Txn.amount).sum
    avg_amount := round2 (meanAmount sub)
    transaction_count := round2 (sub.length : ℚ)
    category_diversity := round2 (((sub.map Txn.category).dedup.length : ℚ)) }

/-- The monthly aggregation table built by `prepare_features`. -/
def monthlyAggs (ts : List Txn) : List MonthlyAgg :=
  (groupKeys ts).map (aggFor ts)

/-- `BudgetPredictor.prepare_features`: raises `ValueError` on an empty
input, otherwise groups the records by (year, month) and aggregates. -/
def prepare_features (ts : List Txn) : Except String (List MonthlyAgg) :=
  if ts.isEmpty then Except.error "No transactions provided"
  else Except.ok (monthlyAggs ts)

/-- The feature row extracted from a monthly aggregate
(`[month, year, avg_amount, category_diversity, transaction_count]`). -/
def featuresOf (a : MonthlyAgg) : List ℚ :=
  featureRow (a.month : ℚ) (a.year : ℚ) a.avg_amount a.category_diversity a.transaction_count

/-- The training target extracted from a monthly aggregate. -/
def targetOf (a : MonthlyAgg) : ℚ :=
  a.total_expense

/-! ## Model Trainer (`BudgetPredictor.train_model`) -/

/-- The sample counts reported by a successful training run.  The fitted
pipeline's evaluation metrics (mean absolute error, R²) are outputs of the
ElasticNet fit and are abstracted away: the claims about `train_model`
concern its error handling and the 80/20 split sizes. -/
structure TrainMetrics where
  training_samples : ℕ
  test_samples : ℕ
deriving DecidableEq

/-- Size of the held-out subset of `train_test_split(test_size=0.2)`:
`ceil(0.2 * n)`. -/
def testSplitCount (n : ℕ) : ℕ :=
  (n + 4) / 5

/-- `BudgetPredictor.train_model`: build the monthly aggregates (raising on
an empty input), raise `ValueError("Need at least 3 months of data to
train")` when there are fewer than 3 aggregate rows, otherwise split 80/20,
fit, and report the sample counts. -/
def train_model (ts : List Txn) : Except String TrainMetrics :=
  match prepare_features ts with
  | Except.error e => Except.error e
  | Except.ok aggs =>
    if aggs.length < 3 then Except.error "Need at least 3 months of data to train"
    else Except.ok
      { training_samples := aggs.length - testSplitCount aggs.length
        test_samples := testSplitCount aggs.length }

/-- Result of `PredictionService.train_model_for_user`: either the
not-enough-data message with the record count, or the training metrics. -/
inductive TrainUserResult where
  | insufficient (message : String) (training_samples : ℕ)
  | metrics (m : TrainMetrics)
deriving DecidableEq

/-- `PredictionService.train_model_for_user`, over the user's fetched
historical records: returns the message result when fewer than 3 records
exist, otherwise defers to `train_model` (whose errors propagate). -/
def train_model_for_user (ts : List Txn) : Except String TrainUserResult :=
  if ts.length < 3 then
    Except.ok (TrainUserResult.insufficient "Not enough data to train model" ts.length)
  else (train_model ts).map TrainUserResult.metrics

/-! ## Forecasting Orchestrator (`PredictionService`, `routes/predictions.py`) -/

/-- The current calendar month's records: the date-range filter
`[first of month, first of next month)` restricted to the user's active
expense records, which for calendar timestamps selects exactly the records
with that (year, month). -/
def currentMonthTxns (db : List Txn) (y : ℤ) (m : ℕ) : List Txn :=
  db.filter fun t => t.year == y && t.month == m

/-- The recommendation expression of
`PredictionService.predict_next_month_budget`: "Increase" when predicted
exceeds current spending by more than 10%, else "Maintain" when predicted is
within 10% of current spending, else "Reduce". -/
def recommendation (predicted_budget current_month_spending : ℚ) : String :=
  if predicted_budget > current_month_spending * (11/10) then "Increase"
  else if |predicted_budget - current_month_spending| < current_month_spending * (1/10) then "Maintain"
  else "Reduce"

/-- The response of `PredictionService.predict_next_month_budget`. -/
structure NextMonthPrediction where
  predicted_budget : ℚ
  current_month_spending : ℚ
  next_month : ℕ
  next_year : ℤ
  recommendation : String

/-- `PredictionService.predict_next_month_budget`: compute the current
month's statistics (with the fixed priors when the month is empty, except
`transaction_count` which stays the raw count), advance to the next calendar
month with December rollover, predict, and classify the recommendation
against the current month's total spending. -/
def predict_next_month_budget (p : Predictor) (db : List Txn)
    (current_year : ℤ) (current_month : ℕ) : NextMonthPrediction :=
  let cur := currentMonthTxns db current_year current_month
  let avg_amount : ℚ := if cur.isEmpty then 2000 else meanAmount cur
  let category_diversity : ℚ := if cur.isEmpty then 5 else ((cur.map Txn.category).dedup.length : ℚ)
  let transaction_count : ℚ := (cur.length : ℚ)
  let next_month : ℕ := if current_month < 12 then current_month + 1 else 1
  let next_year : ℤ := if current_month < 12 then current_year else current_year + 1
  let predicted := predict_budget p (next_month : ℚ) (next_year : ℚ)
    (some avg_amount) (some category_diversity) (some transaction_count)
  let current_month_expense := (cur.map Txn.amount).sum
  { predicted_budget := predicted
    current_month_spending := current_month_expense
    next_month := next_month
    next_year := next_year
    recommendation := recommendation predicted current_month_expense }

/-- The target-month normalization of `get_forecast`:
`while target_month > 12: target_month -= 12; target_year += 1`. -/
def normalizeMonth (m : ℕ) (y : ℤ) : ℕ × ℤ :=
  if h : m > 12 then normalizeMonth (m - 12) (y + 1) else (m, y)
termination_by m
decreasing_by omega

/-- `strftime("%B")` month names. -/
def monthName (m : ℕ) : String :=
  match m with
  | 1 => "January" | 2 => "February" | 3 => "March" | 4 => "April"
  | 5 => "May" | 6 => "June" | 7 => "July" | 8 => "August"
  | 9 => "September" | 10 => "October" | 11 => "November" | 12 => "December"
  | _ => ""

/-- One element of the `/predictions/forecast` response. -/
structure ForecastPoint where
  month : ℕ
  year : ℤ
  predicted_budget : ℚ
  month_name : String

/-- The feature row passed to `predict_budget` at forecast step `i`: the
normalized target (month, year) plus the current month's statistics,
re-computed inside the loop body from the same stored records. -/
def forecast_features (db : List Txn) (cy : ℤ) (cm : ℕ) (i : ℕ) : List ℚ :=
  let cur := currentMonthTxns db cy cm
  featureRow ((normalizeMonth (cm + i) cy).1 : ℚ) ((normalizeMonth (cm + i) cy).2 : ℚ)
    (if cur.isEmpty then 2000 else meanAmount cur)
    (if cur.isEmpty then 5 else ((cur.map Txn.category).dedup.length : ℚ))
    (cur.length : ℚ)

/-- `get_forecast` in `routes/predictions.py`: for `i = 1..months_ahead`,
normalize the target month with year rollover, re-read the current month's
statistics, predict, and emit the forecast point with its month label. -/
def get_forecast (p : Predictor) (db : List Txn) (cy : ℤ) (cm : ℕ)
    (months_ahead : ℕ) : List ForecastPoint :=
  (List.range' 1 months_ahead).map fun i =>
    let cur := currentMonthTxns db cy cm
    { month := (normalizeMonth (cm + i) cy).1
      year := (normalizeMonth (cm + i) cy).2
      predicted_budget := predict_budget p ((normalizeMonth (cm + i) cy).1 : ℚ)
        ((normalizeMonth (cm + i) cy).2 : ℚ)
        (some (if cur.isEmpty then 2000 else meanAmount cur))
        (some (if cur.isEmpty then 5 else ((cur.map Txn.category).dedup.length : ℚ)))
        (some (cur.length : ℚ))
      month_name := monthName (normalizeMonth (cm + i) cy).1 ++ " "
        ++ toString (normalizeMonth (cm + i) cy).2 }

/-! ## Helper lemmas -/

theorem keyLt_iff (a b : ℤ × ℕ) :
    keyLt a b = true ↔ a.1 < b.1 ∨ (a.1 = b.1 ∧ a.2 < b.2) := by
  simp [keyLt]

theorem keyLt_trans (a b c : ℤ × ℕ) (h1 : keyLt a b = true) (h2 : keyLt b c = true) :
    keyLt a c = true := by
  rw [keyLt_iff] at *
  omega

theorem keyLt_ne (a b : ℤ × ℕ) (h : keyLt a b = true) : a ≠ b := by
  rw [keyLt_iff] at h
  intro e
  subst e
  omega

theorem keyLt_total (a b : ℤ × ℕ) (h1 : ¬ a = b) (h2 : ¬ keyLt a b = true) :
    keyLt b a = true := by
  rw [keyLt_iff] at *
  rcases a with ⟨a1, a2⟩
  rcases b with ⟨b1, b2⟩
  simp [Prod.mk.injEq] at h1 ⊢
  simp at h2
  omega

theorem mem_insertKey (a k : ℤ × ℕ) (l : List (ℤ × ℕ)) :
    a ∈ insertKey k l ↔ a = k ∨ a ∈ l := by
  induction l with
  | nil => simp [insertKey]
  | cons x xs ih =>
    unfold insertKey
    split_ifs with h1 h2
    · subst h1
      simp [List.mem_cons]
    · simp [List.mem_cons]
    · simp only [List.mem_cons, ih]
      tauto

theorem pairwise_insertKey (k : ℤ × ℕ) (l : List (ℤ × ℕ))
    (hl : l.Pairwise (fun a b => keyLt a b = true)) :
    (insertKey k l).Pairwise (fun a b => keyLt a b = true) := by
  induction l with
  | nil => simp [insertKey]
  | cons x xs ih =>
    unfold insertKey
    rcases List.pairwise_cons.mp hl with ⟨hx, hxs⟩
    split_ifs with h1 h2
    · exact hl
    · refine List.pairwise_cons.mpr ⟨?_, hl⟩
      intro b hb
      rcases List.mem_cons.mp hb with rfl | hb2
      · exact h2
      · exact keyLt_trans _ _ _ h2 (hx b hb2)
    · refine List.pairwise_cons.mpr ⟨?_, ih hxs⟩
      intro b hb
      rcases (mem_insertKey b k xs).mp hb with rfl | hb2
      · exact keyLt_total _ _ h1 h2
      · exact hx b hb2

theorem pairwise_groupKeys (ts : List Txn) :
    (groupKeys ts).Pairwise (fun a b => keyLt a b = true) := by
  induction ts with
  | nil => simp [groupKeys]
  | cons t ts ih => exact pairwise_insertKey _ _ ih

theorem nodup_groupKeys (ts : List Txn) : (groupKeys ts).Nodup :=
  (pairwise_groupKeys ts).imp fun h => keyLt_ne _ _ h

theorem mem_groupKeys (ts : List Txn) (k : ℤ × ℕ) :
    k ∈ groupKeys ts ↔ ∃ t ∈ ts, (t.year, t.month) = k := by
  induction ts with
  | nil => simp [groupKeys]
  | cons t ts ih =>
    show k ∈ insertKey (t.year, t.month) (groupKeys ts) ↔ _
    rw [mem_insertKey]
    simp only [List.mem_cons, ih]
    constructor
    · rintro (rfl | ⟨u, hu, rfl⟩)
      · exact ⟨t, Or.inl rfl, rfl⟩
      · exact ⟨u, Or.inr hu, rfl⟩
    · rintro ⟨u, (rfl | hu), rfl⟩
      · exact Or.inl rfl
      · exact Or.inr ⟨u, hu, rfl⟩

theorem monthlyAggs_keys (ts : List Txn) :
    (monthlyAggs ts).map (fun a => (a.year, a.month)) = groupKeys ts := by
  unfold monthlyAggs
  rw [List.map_map]
  have h : ((fun a : MonthlyAgg => (a.year, a.month)) ∘ aggFor ts) = id := by
    funext k
    cases k
    rfl
  rw [h, List.map_id]

theorem roundHalfEven_intCast (z : ℤ) : roundHalfEven (z : ℚ) = z := by
  simp [roundHalfEven, Int.floor_intCast]

theorem round2_natCast (n : ℕ) : round2 (n : ℚ) = n := by
  unfold round2
  have h1 : ((n : ℚ)) * 100 = (((n * 100 : ℕ) : ℤ) : ℚ) := by push_cast; ring
  rw [h1, roundHalfEven_intCast]
  push_cast
  field_simp

theorem abs_roundHalfEven_sub (q : ℚ) : |(roundHalfEven q : ℚ) - q| ≤ 1/2 := by
  have hf1 : ((⌊q⌋ : ℤ) : ℚ) ≤ q := Int.floor_le q
  have hf2 : q < ⌊q⌋ + 1 := Int.lt_floor_add_one q
  unfold roundHalfEven
  split_ifs with h1 h2 h3 <;> push_cast <;> rw [abs_le] <;> constructor <;> linarith

theorem abs_round2_sub (q : ℚ) : |round2 q - q| ≤ 1/200 := by
  unfold round2
  have h0 : (roundHalfEven (q * 100) : ℚ) / 100 - q
      = ((roundHalfEven (q * 100) : ℚ) - q * 100) / 100 := by ring
  rw [h0, abs_div, abs_of_pos (by norm_num : (0:ℚ) < 100)]
  have h1 := abs_roundHalfEven_sub (q * 100)
  calc |(roundHalfEven (q * 100) : ℚ) - q * 100| / 100
      ≤ (1/2) / 100 := by
        exact (div_le_div_iff_of_pos_right (by norm_num)).mpr h1
    _ = 1/200 := by norm_num

theorem train_model_eq (ts : List Txn) (hne : ts ≠ []) :
    train_model ts = if (monthlyAggs ts).length < 3
      then Except.error "Need at least 3 months of data to train"
      else Except.ok (TrainMetrics.mk
        ((monthlyAggs ts).length - testSplitCount (monthlyAggs ts).length)
        (testSplitCount (monthlyAggs ts).length)) := by
  have hpf : prepare_features ts = Except.ok (monthlyAggs ts) := by
    unfold prepare_features
    rw [if_neg (by simpa using hne)]
  unfold train_model
  rw [hpf]

theorem normalizeMonth_spec (m : ℕ) (y : ℤ) (h : 1 ≤ m) :
    normalizeMonth m y = ((m - 1) % 12 + 1, y + ((m - 1) / 12 : ℕ)) := by
  induction m using Nat.strong_induction_on generalizing y with
  | _ m ih =>
    rw [normalizeMonth]
    split
    · next h12 =>
        rw [ih (m - 12) (by omega) (y + 1) (by omega)]
        simp only [Prod.mk.injEq]
        exact ⟨by omega, by omega⟩
    · next h12 =>
        simp only [Prod.mk.injEq]
        exact ⟨by omega, by omega⟩

theorem get_forecast_length (p : Predictor) (db : List Txn) (cy : ℤ) (cm N : ℕ) :
    (get_forecast p db cy cm N).length = N := by
  simp [get_forecast]

theorem get_forecast_get (p : Predictor) (db : List Txn) (cy : ℤ) (cm N i : ℕ)
    (h : i < (get_forecast p db cy cm N).length) :
    (get_forecast p db cy cm N).get ⟨i, h⟩ =
      { month := (normalizeMonth (cm + (1 + i)) cy).1
        year := (normalizeMonth (cm + (1 + i)) cy).2
        predicted_budget := predictRow p (forecast_features db cy cm (1 + i))
        month_name := monthName (normalizeMonth (cm + (1 + i)) cy).1 ++ " "
          ++ toString (normalizeMonth (cm + (1 + i)) cy).2 } := by
  have hN : i < N := by simpa [get_forecast_length] using h
  simp only [get_forecast, List.get_eq_getElem, List.getElem_map, List.getElem_range', one_mul]
  rfl

/-! ## Claim theorems -/

/-- **C1** (amended): the recommendation of the next-month prediction is
"Increase" iff `predicted > current * 1.1`; otherwise "Maintain" iff
`|predicted − current| < current * 0.1`; otherwise "Reduce" — and "Reduce"
occurs only when the predicted value is not greater than `current * 1.1`
(at exactly `predicted = current * 1.1` "Reduce" can fire with predicted
above current spending); for `current = 1000`: `1150 ↦ "Increase"`,
`1050 ↦ "Maintain"`, `850 ↦ "Reduce"`. -/
theorem recommendation_bands (p : Predictor) (db : List Txn) (y : ℤ) (m : ℕ)
    (predicted current : ℚ) :
    (predict_next_month_budget p db y m).recommendation
        = recommendation (predict_next_month_budget p db y m).predicted_budget
            (predict_next_month_budget p db y m).current_month_spending ∧
    (recommendation predicted current = "Increase" ↔ current * (11/10) < predicted) ∧
    (recommendation predicted current = "Maintain" ↔
      ¬ current * (11/10) < predicted ∧ |predicted - current| < current * (1/10)) ∧
    (recommendation predicted current = "Reduce" ↔
      ¬ current * (11/10) < predicted ∧ ¬ |predicted - current| < current * (1/10)) ∧
    (recommendation predicted current = "Reduce" → predicted ≤ current * (11/10)) ∧
    recommendation 1150 1000 = "Increase" ∧
    recommendation 1050 1000 = "Maintain" ∧
    recommendation 850 1000 = "Reduce" := by
  have hmain : (recommendation predicted current = "Increase" ↔ current * (11/10) < predicted) ∧
      (recommendation predicted current = "Maintain" ↔
        ¬ current * (11/10) < predicted ∧ |predicted - current| < current * (1/10)) ∧
      (recommendation predicted current = "Reduce" ↔
        ¬ current * (11/10) < predicted ∧ ¬ |predicted - current| < current * (1/10)) ∧
      (recommendation predicted current = "Reduce" → predicted ≤ current * (11/10)) := by
    unfold recommendation
    split_ifs with h1 h2 <;> refine ⟨?_, ?_, ?_, ?_⟩ <;> simp_all
  refine ⟨rfl, hmain.1, hmain.2.1, hmain.2.2.1, hmain.2.2.2, ?_, ?_, ?_⟩
  · norm_num [recommendation]
  · norm_num [recommendation, abs_of_nonneg]
  · norm_num [recommendation, abs_of_nonpos]

/-- **C1** counterexample: a trained model predicting exactly `1100` against a
current month totalling `1000` yields the recommendation "Reduce" although the
predicted value is strictly greater than the current spending — refuting
"Reduce occurs only when the predicted value is not greater than the current
spending". -/
theorem recommendation_reduce_above_current :
    (predict_next_month_budget (Predictor.mk true fun _ => Except.ok 1100)
        [Txn.mk 1000 "food" 2024 5 1] 2024 5).recommendation = "Reduce" ∧
    (predict_next_month_budget (Predictor.mk true fun _ => Except.ok 1100)
        [Txn.mk 1000 "food" 2024 5 1] 2024 5).current_month_spending
      < (predict_next_month_budget (Predictor.mk true fun _ => Except.ok 1100)
        [Txn.mk 1000 "food" 2024 5 1] 2024 5).predicted_budget := by
  constructor
  · norm_num [predict_next_month_budget, currentMonthTxns, meanAmount, predict_budget,
      predictRow, recommendation, featureRow, List.filter]
  · norm_num [predict_next_month_budget, currentMonthTxns, meanAmount, predict_budget,
      predictRow, featureRow, List.filter]

/-- **C2** (amended): when the user has fewer than 3 historical records the
training-triggering operation returns the
`{message, training_sample_count}` result; but with at least 3 records
grouping into fewer than 3 monthly aggregates the insufficient-data error
propagates out of the training request instead. -/
theorem train_user_insufficient (ts : List Txn) :
    (ts.length < 3 → train_model_for_user ts
        = Except.ok (TrainUserResult.insufficient "Not enough data to train model" ts.length)) ∧
    (3 ≤ ts.length → (groupKeys ts).length < 3 →
      train_model_for_user ts = Except.error "Need at least 3 months of data to train") := by
  constructor
  · intro h
    unfold train_model_for_user
    rw [if_pos h]
  · intro h3 hk
    have hne : ts ≠ [] := by
      intro e
      subst e
      simp at h3
    unfold train_model_for_user
    rw [if_neg (by omega), train_model_eq ts hne,
      if_pos (by simpa [monthlyAggs] using hk)]
    rfl

/-- **C2** witness: one record yields the message result; three same-month
records do not. -/
theorem train_user_insufficient_witness :
    train_model_for_user [Txn.mk 10 "a" 2024 1 5]
      = Except.ok (TrainUserResult.insufficient "Not enough data to train model" 1) ∧
    train_model_for_user [Txn.mk 10 "a" 2024 1 5, Txn.mk 20 "b" 2024 1 9, Txn.mk 30 "c" 2024 1 20]
      = Except.error "Need at least 3 months of data to train" :=
  ⟨(train_user_insufficient _).1 (by decide),
   (train_user_insufficient _).2 (by decide) (by decide)⟩

/-- **C2** counterexample: three records in one calendar month give fewer
than 3 monthly aggregates, yet `train_model_for_user` raises the
insufficient-data error to its caller instead of returning the
`{message, training_sample_count}` result. -/
theorem train_user_insufficient_cex :
    (groupKeys [Txn.mk 10 "a" 2024 3 5, Txn.mk 20 "b" 2024 3 9, Txn.mk 30 "c" 2024 3 20]).length
      = 1 ∧
    train_model_for_user [Txn.mk 10 "a" 2024 3 5, Txn.mk 20 "b" 2024 3 9, Txn.mk 30 "c" 2024 3 20]
      = Except.error "Need at least 3 months of data to train" :=
  ⟨by decide, rfl⟩

/-- **C3**: record sets grouping into fewer than 3 monthly aggregates make
`train_model` raise the insufficient-data error; a record set grouping into
exactly 3 aggregates trains successfully, reporting 2 training and 1 test
sample (the 80/20 split of 3 rows). -/
theorem train_model_sample_threshold (ts : List Txn) :
    ((groupKeys ts).length < 3 → ∃ e, train_model ts = Except.error e) ∧
    ((groupKeys ts).length = 3 → train_model ts = Except.ok (TrainMetrics.mk 2 1)) := by
  constructor
  · intro h
    cases ts with
    | nil => exact ⟨"No transactions provided", rfl⟩
    | cons t ts2 =>
      refine ⟨"Need at least 3 months of data to train", ?_⟩
      rw [train_model_eq _ (by simp), if_pos (by simpa [monthlyAggs] using h)]
  · intro h
    have hne : ts ≠ [] := by
      intro e
      subst e
      simp [groupKeys] at h
    have hlen : (monthlyAggs ts).length = 3 := by simpa [monthlyAggs] using h
    rw [train_model_eq ts hne, if_neg (by omega), hlen]
    rfl

/-- **C3** witness: three one-record months train to `(2, 1)` samples; a
single month raises. -/
theorem train_model_sample_threshold_witness :
    train_model [Txn.mk 10 "a" 2024 1 5, Txn.mk 20 "b" 2024 2 5, Txn.mk 30 "a" 2024 3 5]
      = Except.ok (TrainMetrics.mk 2 1) ∧
    ∃ e, train_model [Txn.mk 10 "a" 2024 1 5] = Except.error e :=
  ⟨(train_model_sample_threshold _).2 (by decide),
   (train_model_sample_threshold _).1 (by decide)⟩

/-- **C4**: `predict_budget` on an untrained Predictor returns exactly
`10000.0` for every input, and the result never depends on the loaded model
function. -/
theorem untrained_predict_default (p : Predictor) (month year : ℚ)
    (a d c : Option ℚ) (h : p.is_trained = false) :
    predict_budget p month year a d c = 10000 ∧
    ∀ f : List ℚ → Except String ℚ,
      predict_budget (Predictor.mk false f) month year a d c = 10000 := by
  constructor
  · simp [predict_budget, predictRow, h]
  · intro f
    simp [predict_budget, predictRow]

/-- **C4** witness. -/
theorem untrained_predict_default_witness :
    predict_budget (Predictor.mk false fun row => Except.ok row.sum) 7 2031 none (some 3) none
      = 10000 :=
  (untrained_predict_default _ 7 2031 none (some 3) none rfl).1

/-- **C5**: on a trained Predictor the returned value is non-negative for
every input, and when the model produces a raw output `r` the result is the
clamp `max 0 r` — so negative raw outputs are clamped to `0`. -/
theorem trained_predict_nonneg (p : Predictor) (month year : ℚ)
    (a d c : Option ℚ) (h : p.is_trained = true) :
    0 ≤ predict_budget p month year a d c ∧
    ∀ r : ℚ, p.model (featureRow month year (a.getD 2000) (d.getD 5) (c.getD 20)) = Except.ok r →
      predict_budget p month year a d c = max 0 r := by
  constructor
  · unfold predict_budget predictRow
    cases hm : p.model (featureRow month year (a.getD 2000) (d.getD 5) (c.getD 20)) with
    | ok r => simp [h, hm, le_max_left]
    | error e => simp [h, hm]
  · intro r hr
    simp [predict_budget, predictRow, h, hr]

/-- **C5** witness: a model with raw output `-5` predicts `max 0 (-5) = 0 ≥ 0`. -/
theorem trained_predict_nonneg_witness :
    0 ≤ predict_budget (Predictor.mk true fun _ => Except.ok (-5)) 1 2026 none none none :=
  (trained_predict_nonneg _ 1 2026 none none none rfl).1

/-- **C6**: on a trained Predictor any inference failure is absorbed: the
result is the fixed default `10000.0`, and no error is surfaced. -/
theorem trained_predict_absorbs_failure (p : Predictor) (month year : ℚ)
    (a d c : Option ℚ) (e : String) (ht : p.is_trained = true)
    (he : p.model (featureRow month year (a.getD 2000) (d.getD 5) (c.getD 20))
      = Except.error e) :
    predict_budget p month year a d c = 10000 := by
  simp [predict_budget, predictRow, ht, he]

/-- **C6** witness: a model failing with a shape mismatch yields `10000`. -/
theorem trained_predict_absorbs_failure_witness :
    predict_budget (Predictor.mk true fun _ => Except.error "shape mismatch")
      3 2025 (some 100) none none = 10000 :=
  trained_predict_absorbs_failure _ 3 2025 (some 100) none none "shape mismatch" rfl rfl

/-- Characterization of a forecast point: its (month, year) is the
normalization of `current month + step`, the month is a calendar month, and
its absolute month index advances by exactly the step. -/
theorem forecast_point_char (p : Predictor) (db : List Txn) (cy : ℤ) (cm N : ℕ)
    (hm1 : 1 ≤ cm) (i : ℕ) (h : i < (get_forecast p db cy cm N).length) :
    ((get_forecast p db cy cm N).get ⟨i, h⟩).month = (normalizeMonth (cm + (1 + i)) cy).1 ∧
    ((get_forecast p db cy cm N).get ⟨i, h⟩).year = (normalizeMonth (cm + (1 + i)) cy).2 ∧
    1 ≤ ((get_forecast p db cy cm N).get ⟨i, h⟩).month ∧
    ((get_forecast p db cy cm N).get ⟨i, h⟩).month ≤ 12 ∧
    (((get_forecast p db cy cm N).get ⟨i, h⟩).month : ℤ)
        + 12 * ((get_forecast p db cy cm N).get ⟨i, h⟩).year
      = (cm : ℤ) + (1 + (i : ℤ)) + 12 * cy := by
  rw [get_forecast_get, normalizeMonth_spec _ _ (by omega)]
  dsimp only
  refine ⟨rfl, rfl, by omega, by omega, by push_cast; omega⟩

/-- getElem form of `get_forecast_get`. -/
theorem get_forecast_getElem (p : Predictor) (db : List Txn) (cy : ℤ) (cm N i : ℕ)
    (h : i < (get_forecast p db cy cm N).length) :
    (get_forecast p db cy cm N)[i] =
      { month := (normalizeMonth (cm + (1 + i)) cy).1
        year := (normalizeMonth (cm + (1 + i)) cy).2
        predicted_budget := predictRow p (forecast_features db cy cm (1 + i))
        month_name := monthName (normalizeMonth (cm + (1 + i)) cy).1 ++ " "
          ++ toString (normalizeMonth (cm + (1 + i)) cy).2 } :=
  get_forecast_get p db cy cm N i h

/-- **C7**: for a current calendar month `cm` and horizon `N ≥ 1`, the
forecast has exactly `N` points, point `i` targets the normalization of
`cm + (1 + i)` (the `while month > 12` rollover), every target month lies in
`1..12`, the sequence is chronologically ascending, and in particular
forecasting 2 months from 12/2024 targets [1/2025, 2/2025] and 3 months from
10/2024 targets [11/2024, 12/2024, 1/2025]. -/
theorem forecast_calendar (p : Predictor) (db : List Txn) (cy : ℤ) (cm N : ℕ)
    (hm1 : 1 ≤ cm) (hm2 : cm ≤ 12) (hN : 1 ≤ N) :
    (get_forecast p db cy cm N).length = N ∧
    (∀ i (h : i < (get_forecast p db cy cm N).length),
      ((get_forecast p db cy cm N).get ⟨i, h⟩).month = (normalizeMonth (cm + (1 + i)) cy).1 ∧
      ((get_forecast p db cy cm N).get ⟨i, h⟩).year = (normalizeMonth (cm + (1 + i)) cy).2 ∧
      1 ≤ ((get_forecast p db cy cm N).get ⟨i, h⟩).month ∧
      ((get_forecast p db cy cm N).get ⟨i, h⟩).month ≤ 12) ∧
    (∀ i j (hi : i < (get_forecast p db cy cm N).length)
        (hj : j < (get_forecast p db cy cm N).length), i < j →
      (((get_forecast p db cy cm N).get ⟨i, hi⟩).month : ℤ)
          + 12 * ((get_forecast p db cy cm N).get ⟨i, hi⟩).year
        < (((get_forecast p db cy cm N).get ⟨j, hj⟩).month : ℤ)
          + 12 * ((get_forecast p db cy cm N).get ⟨j, hj⟩).year) ∧
    ((get_forecast p db 2024 12 2).map fun pt => (pt.month, pt.year))
      = [(1, 2025), (2, 2025)] ∧
    ((get_forecast p db 2024 10 3).map fun pt => (pt.month, pt.year))
      = [(11, 2024), (12, 2024), (1, 2025)] := by
  refine ⟨get_forecast_length p db cy cm N, ?_, ?_, ?_, ?_⟩
  · intro i h
    have hc := forecast_point_char p db cy cm N hm1 i h
    exact ⟨hc.1, hc.2.1, hc.2.2.1, hc.2.2.2.1⟩
  · intro i j hi hj hij
    have hci := (forecast_point_char p db cy cm N hm1 i hi).2.2.2.2
    have hcj := (forecast_point_char p db cy cm N hm1 j hj).2.2.2.2
    omega
  · have h13 : normalizeMonth 13 2024 = (1, 2025) := by simp [normalizeMonth]
    have h14 : normalizeMonth 14 2024 = (2, 2025) := by simp [normalizeMonth]
    apply List.ext_get
    · rw [List.length_map, get_forecast_length]
      rfl
    · intro n h1 h2
      have hn : n < (get_forecast p db 2024 12 2).length := by
        simpa [get_forecast_length, List.length_map] using h1
      simp only [List.get_eq_getElem, List.getElem_map]
      rw [get_forecast_getElem p db 2024 12 2 n hn]
      have h2b : n < 2 := by simpa using h2
      interval_cases n
      · dsimp only
        rw [show (12 + (1 + 0)) = 13 from rfl, h13]
        rfl
      · dsimp only
        rw [show (12 + (1 + 1)) = 14 from rfl, h14]
        rfl
  · have h11 : normalizeMonth 11 2024 = (11, 2024) := by simp [normalizeMonth]
    have h12 : normalizeMonth 12 2024 = (12, 2024) := by simp [normalizeMonth]
    have h13 : normalizeMonth 13 2024 = (1, 2025) := by simp [normalizeMonth]
    apply List.ext_get
    · rw [List.length_map, get_forecast_length]
      rfl
    · intro n h1 h2
      have hn : n < (get_forecast p db 2024 10 3).length := by
        simpa [get_forecast_length, List.length_map] using h1
      simp only [List.get_eq_getElem, List.getElem_map]
      rw [get_forecast_getElem p db 2024 10 3 n hn]
      have h2b : n < 3 := by simpa using h2
      interval_cases n
      · dsimp only
        rw [show (10 + (1 + 0)) = 11 from rfl, h11]
        rfl
      · dsimp only
        rw [show (10 + (1 + 1)) = 12 from rfl, h12]
        rfl
      · dsimp only
        rw [show (10 + (1 + 2)) = 13 from rfl, h13]
        rfl

/-- **C7** witness: from 11/2024 with horizon 4 the hypotheses hold and the
forecast has 4 points. -/
theorem forecast_calendar_witness :
    (get_forecast (Predictor.mk false fun _ => Except.ok 0) [] 2024 11 4).length = 4 :=
  (forecast_calendar (Predictor.mk false fun _ => Except.ok 0) [] 2024 11 4
    (by omega) (by omega) (by omega)).1

/-- **C9**: every forecast step's prediction is computed from the step's
feature row `forecast_features`; any two steps' feature rows agree on the
last three components (average amount, category diversity, transaction
count, taken from the same current-month statistics) and differ only in the
first two (target month and year). -/
theorem forecast_constant_stats (p : Predictor) (db : List Txn) (cy : ℤ) (cm N : ℕ) :
    (∀ i (h : i < (get_forecast p db cy cm N).length),
      ((get_forecast p db cy cm N).get ⟨i, h⟩).predicted_budget
        = predictRow p (forecast_features db cy cm (1 + i))) ∧
    (∀ i j, (forecast_features db cy cm i).drop 2 = (forecast_features db cy cm j).drop 2) ∧
    (∀ i, (forecast_features db cy cm i).take 2
      = [((normalizeMonth (cm + i) cy).1 : ℚ), ((normalizeMonth (cm + i) cy).2 : ℚ)]) ∧
    (∀ i, (forecast_features db cy cm i).length = 5) := by
  refine ⟨?_, ?_, ?_, ?_⟩
  · intro i h
    rw [get_forecast_get]
  · intro i j
    rfl
  · intro i
    rfl
  · intro i
    rfl

/-- **C9** witness. -/
theorem forecast_constant_stats_witness :
    ((get_forecast (Predictor.mk false fun _ => Except.ok 0) [] 2024 5 1).get
        ⟨0, by rw [get_forecast_length]; omega⟩).predicted_budget
      = predictRow (Predictor.mk false fun _ => Except.ok 0)
          (forecast_features [] 2024 5 (1 + 0)) :=
  (forecast_constant_stats (Predictor.mk false fun _ => Except.ok 0) [] 2024 5 1).1 0 _

/-- **C8** (amended): the Feature Builder fails on an empty input; on a
non-empty input it emits exactly one monthly aggregate per distinct
(year, month) among the records (no bucket for other months), whose
total_expense and average_amount are the month's sum and mean of amounts
*rounded to 2 decimal places* (the frame-wide `.round(2)`), and whose
transaction_count and category_diversity are exactly the month's record
count and distinct-category count. -/
theorem prepare_features_buckets (ts : List Txn) (hne : ts ≠ []) :
    prepare_features ([] : List Txn) = Except.error "No transactions provided" ∧
    ∃ aggs, prepare_features ts = Except.ok aggs ∧
      ((aggs.map fun a => (a.year, a.month)).Nodup) ∧
      (∀ y m, ((y, m) ∈ aggs.map fun a => (a.year, a.month)) ↔
        ∃ t ∈ ts, t.year = y ∧ t.month = m) ∧
      (∀ a ∈ aggs,
        a.total_expense = round2 ((txnsInMonth ts (a.year, a.month)).map Txn.amount).sum ∧
        a.avg_amount = round2 (meanAmount (txnsInMonth ts (a.year, a.month))) ∧
        a.transaction_count = ((txnsInMonth ts (a.year, a.month)).length : ℚ) ∧
        a.category_diversity
          = (((txnsInMonth ts (a.year, a.month)).map Txn.category).dedup.length : ℚ)) := by
  refine ⟨rfl, monthlyAggs ts, ?_, ?_, ?_, ?_⟩
  · unfold prepare_features
    rw [if_neg (by simpa using hne)]
  · rw [monthlyAggs_keys]
    exact nodup_groupKeys ts
  · intro y m
    rw [monthlyAggs_keys, mem_groupKeys]
    simp only [Prod.mk.injEq]
  · intro a ha
    have hmem : ∃ k ∈ groupKeys ts, aggFor ts k = a := by
      simpa [monthlyAggs, List.mem_map] using ha
    rcases hmem with ⟨k, hk, rfl⟩
    have hk2 : ((aggFor ts k).year, (aggFor ts k).month) = k := by
      cases k
      rfl
    rw [hk2]
    exact ⟨rfl, rfl, round2_natCast _, round2_natCast _⟩

/-- **C8** witness: a non-empty input produces an `ok` aggregate list. -/
theorem prepare_features_buckets_witness :
    prepare_features ([] : List Txn) = Except.error "No transactions provided" ∧
    ∃ aggs, prepare_features [Txn.mk 12 "rent" 2025 2 3] = Except.ok aggs := by
  have h := prepare_features_buckets [Txn.mk 12 "rent" 2025 2 3] (by simp)
  obtain ⟨h1, aggs, h2, -⟩ := h
  exact ⟨h1, aggs, h2⟩

/-- **C8** counterexample: a single record of amount `0.001` produces an
aggregate whose total_expense is `0`, not the sum of the month's amounts
(`0.001`) — the statistics are rounded to 2 decimal places, refuting the
claim's exact-sum/mean reading. -/
theorem prepare_features_rounds_cex :
    prepare_features [Txn.mk (1/1000) "food" 2024 1 15]
      = Except.ok [MonthlyAgg.mk 2024 1 0 0 1 1] ∧
    ([Txn.mk (1/1000) "food" 2024 1 15].map Txn.amount).sum = 1/1000 ∧
    (1/1000 : ℚ) ≠ 0 := by
  refine ⟨?_, by norm_num, by norm_num⟩
  have h2 : aggFor [Txn.mk (1/1000) "food" 2024 1 15] (2024, 1)
      = MonthlyAgg.mk 2024 1 0 0 1 1 := by
    unfold aggFor txnsInMonth
    norm_num [List.filter, meanAmount, round2, roundHalfEven, List.dedup]
  show Except.ok (monthlyAggs [Txn.mk (1/1000) "food" 2024 1 15]) = _
  rw [show monthlyAggs [Txn.mk (1/1000) "food" 2024 1 15]
    = [aggFor [Txn.mk (1/1000) "food" 2024 1 15] (2024, 1)] from rfl, h2]

/-- **C10**: every statistic of a monthly aggregate is the `.round(2)` image
of the corresponding exact statistic (for the integer-valued counts the
rounding is the identity), the feature row and training target are built
from these rounded values, the rounded sums and means lie within `1/200` of
the exact ones, and the rounding is genuinely lossy (`0.001` rounds to `0`). -/
theorem monthly_agg_rounded (ts : List Txn) (a : MonthlyAgg) (ha : a ∈ monthlyAggs ts) :
    a.total_expense = round2 ((txnsInMonth ts (a.year, a.month)).map Txn.amount).sum ∧
    a.avg_amount = round2 (meanAmount (txnsInMonth ts (a.year, a.month))) ∧
    a.transaction_count = round2 ((txnsInMonth ts (a.year, a.month)).length : ℚ) ∧
    a.category_diversity
      = round2 ((((txnsInMonth ts (a.year, a.month)).map Txn.category).dedup.length : ℚ)) ∧
    |a.total_expense - ((txnsInMonth ts (a.year, a.month)).map Txn.amount).sum| ≤ 1/200 ∧
    |a.avg_amount - meanAmount (txnsInMonth ts (a.year, a.month))| ≤ 1/200 ∧
    featuresOf a = [(a.month : ℚ), (a.year : ℚ), a.avg_amount, a.category_diversity,
      a.transaction_count] ∧
    targetOf a = a.total_expense ∧
    round2 (1/1000) ≠ (1/1000 : ℚ) := by
  have hmem : ∃ k ∈ groupKeys ts, aggFor ts k = a := by
    simpa [monthlyAggs, List.mem_map] using ha
  rcases hmem with ⟨k, hk, rfl⟩
  have hk2 : ((aggFor ts k).year, (aggFor ts k).month) = k := by
    cases k
    rfl
  rw [hk2]
  refine ⟨rfl, rfl, rfl, rfl, ?_, ?_, rfl, rfl, ?_⟩
  · exact abs_round2_sub _
  · exact abs_round2_sub _
  · norm_num [round2, roundHalfEven]

/-- **C10** witness. -/
theorem monthly_agg_rounded_witness :
    (aggFor [Txn.mk 1 "x" 2024 3 2] (2024, 3)).total_expense
      = round2 ((txnsInMonth [Txn.mk 1 "x" 2024 3 2] (2024, 3)).map Txn.amount).sum :=
  (monthly_agg_rounded [Txn.mk 1 "x" 2024 3 2] _ (List.mem_cons_self _ _)).1

end SpendWise
